import Mathlib

/-!
# WabiSaby storage node — Lean embedding of the lifecycle core

Shallow embedding of the node-side agent of the WabiSaby storage network:
the Storage-API HTTP client (`internal/ipfs/client.go`), the IPFS daemon
lifecycle manager (`internal/ipfs/manager.go`), and the agent orchestrator
(`internal/agent/agent.go`).  Effectful Go code is modelled as pure
functions over explicit environments (the outcomes of HTTP requests, RPC
calls, process launches and readiness probes), producing traces of the
externally visible events, so that ordering, counting and error-propagation
properties of the code can be stated and proved.
-/

namespace WabiSaby

/-- Whether a Go `error`-returning call succeeded (`err == nil`). -/
def isOkB {ε α : Type} : Except ε α → Bool
  | .ok _ => true
  | .error _ => false

/-! ## Storage-API client (`internal/ipfs/client.go`)

Each operation performs exactly one HTTP request; the outcome of that
request is the operation's environment.  `HTTPResult.transportErr` is
`httpClient.Do` returning an error; `HTTPResult.response` is a received
response with its status code and body text. -/

/-- An HTTP response as the client sees it: status code and body text. -/
structure HTTPResponse where
  statusCode : Nat
  body : String
  deriving DecidableEq, Repr

/-- Outcome of the single HTTP request an operation issues. -/
inductive HTTPResult where
  | transportErr (msg : String)
  | response (r : HTTPResponse)
  deriving DecidableEq, Repr

/-- The distinct error construction sites of the client operations:
a transport error (`failed to execute request: %w`), an API error
(`IPFS <op> failed with status %d: %s`, carrying the daemon status code
and body text), or a JSON decode error (`failed to decode response: %w`). -/
inductive ClientError where
  | transport (msg : String)
  | api (status : Nat) (body : String)
  | decode (msg : String)
  deriving DecidableEq, Repr

/-- IPFS repository statistics returned from `/repo/stat`
(struct `RepoStatResult` in `client.go`). `RepoSize` is a Go `uint64`,
modelled as a `Nat` (callers that truncate do so explicitly). -/
structure RepoStatResult where
  RepoSize : Nat
  StorageMax : Nat
  deriving DecidableEq, Repr

namespace Client

/-- Operation `Client.Pin`: POST `/api/v0/pin/add?arg=<cid>`; error on transport
failure, error carrying status and body on status ≠ 200, else success. -/
def Pin (res : HTTPResult) : Except ClientError Unit :=
  match res with
  | .transportErr m => .error (.transport m)
  | .response r =>
      if r.statusCode ≠ 200 then .error (.api r.statusCode r.body)
      else .ok ()

/-- Operation `Client.Version`: POST `/api/v0/version`; on a 200 response the body is
JSON-decoded (the decoder is the external JSON library, passed as a
parameter) into the version string. -/
def Version (decodeVersion : String → Option String) (res : HTTPResult) :
    Except ClientError String :=
  match res with
  | .transportErr m => .error (.transport m)
  | .response r =>
      if r.statusCode ≠ 200 then .error (.api r.statusCode r.body)
      else
        match decodeVersion r.body with
        | none => .error (.decode r.body)
        | some v => .ok v

/-- Operation `Client.ID`: POST `/api/v0/id`; on a 200 response the body is decoded
into the peer ID and its addresses. -/
def ID (decodeID : String → Option (String × List String)) (res : HTTPResult) :
    Except ClientError (String × List String) :=
  match res with
  | .transportErr m => .error (.transport m)
  | .response r =>
      if r.statusCode ≠ 200 then .error (.api r.statusCode r.body)
      else
        match decodeID r.body with
        | none => .error (.decode r.body)
        | some v => .ok v

/-- Operation `Client.RepoStat`: POST `/api/v0/repo/stat`; on a 200 response the body
is decoded into a `RepoStatResult`. -/
def RepoStat (decodeStat : String → Option RepoStatResult) (res : HTTPResult) :
    Except ClientError RepoStatResult :=
  match res with
  | .transportErr m => .error (.transport m)
  | .response r =>
      if r.statusCode ≠ 200 then .error (.api r.statusCode r.body)
      else
        match decodeStat r.body with
        | none => .error (.decode r.body)
        | some v => .ok v

end Client

/-! ## Heartbeat loop (`internal/agent/agent.go`, `heartbeatLoop`)

Each ticker tick reads `RepoStat` from the local IPFS node, computes the
storage-used figure with saturation at `math.MaxInt64`, and sends one
`Heartbeat` RPC; an RPC failure is logged and the loop continues.  A tick's
environment is the outcome of its `RepoStat` call (a Go `(*RepoStatResult,
error)` pair, so the success payload is an `Option` to model the pointer)
and the outcome of its `Heartbeat` RPC. -/

/-- The value `math.MaxInt64`. -/
def maxInt64 : Nat := 2 ^ 63 - 1

/-- Environment of one heartbeat tick. -/
structure HBTickEnv where
  repoStat : Except ClientError (Option RepoStatResult)
  uptimeSeconds : Int
  hbResult : Except String Unit

/-- One `Heartbeat` RPC as issued: its request fields and whether the RPC
succeeded. -/
structure HBEvent where
  storageUsed : Int
  uptimeSeconds : Int
  ok : Bool
  deriving DecidableEq, Repr

/-- The `storageUsed` computation of a heartbeat tick:
`storageUsed := int64(0); if err == nil && stat != nil { if stat.RepoSize >
uint64(math.MaxInt64) { storageUsed = math.MaxInt64 } else { storageUsed =
int64(stat.RepoSize) } }`. -/
def heartbeatStorageUsed (stat : Except ClientError (Option RepoStatResult)) : Int :=
  match stat with
  | .ok (some s) =>
      if s.RepoSize > maxInt64 then (maxInt64 : Int) else (s.RepoSize : Int)
  | _ => 0

/-- One iteration of the heartbeat loop body: gather stats, send the
heartbeat, record the outcome. -/
def heartbeatTick (t : HBTickEnv) : HBEvent :=
  { storageUsed := heartbeatStorageUsed t.repoStat
    uptimeSeconds := t.uptimeSeconds
    ok := isOkB t.hbResult }

/-- Loop `heartbeatLoop` over a finite prefix of ticker ticks: every tick runs
the tick body exactly once; an RPC failure only logs, so the loop shape
does not depend on past outcomes. -/
def heartbeatLoop (ticks : List HBTickEnv) : List HBEvent :=
  ticks.map heartbeatTick

/-! ## Pin-task handler (`internal/agent/agent.go`, `processTask`)

`processTask` attempts `ipfs.Pin(task.Cid)`, maps the outcome to a
`PIN_STATUS_PINNED`/`PIN_STATUS_FAILED` status, then issues exactly one
`ReportPinStatus` RPC with that status.  The environment of a task is the
outcome of the pin HTTP request and the outcome of the report RPC. -/

/-- Message `nodepb.PinTask` as the agent uses it. -/
structure PinTask where
  TaskId : String
  Cid : String
  deriving DecidableEq, Repr

/-- The two terminal statuses the agent reports
(`PIN_STATUS_PINNED` / `PIN_STATUS_FAILED`). -/
inductive PinStatus where
  | pinned
  | failed
  deriving DecidableEq, Repr

/-- Externally visible events of a task handler, in program order. -/
inductive TaskEvent where
  | pinAttempt (cid : String) (ok : Bool)
  | report (taskId : String) (status : PinStatus) (ok : Bool)
  deriving DecidableEq, Repr

/-- Environment of one task handler: the HTTP outcome of its pin request
and the outcome of its `ReportPinStatus` RPC. -/
structure TaskEnv where
  pinHTTP : HTTPResult
  reportResult : Except String Unit

/-- Whether a `TaskEvent` is a `ReportPinStatus` call for the given task. -/
def TaskEvent.isReportFor (taskId : String) : TaskEvent → Bool
  | .report t _ _ => t == taskId
  | _ => false

/-- Handler `processTask`: pin the CID, derive the status (`PINNED` unless the pin
returned an error, then `FAILED`), then report it to the coordinator; a
report failure is only logged. -/
def processTask (task : PinTask) (env : TaskEnv) : List TaskEvent :=
  let pinOk := isOkB (Client.Pin env.pinHTTP)
  let status := if pinOk then PinStatus.pinned else PinStatus.failed
  [TaskEvent.pinAttempt task.Cid pinOk,
   TaskEvent.report task.TaskId status (isOkB env.reportResult)]

/-! ## Registration (`internal/agent/agent.go`, `register`) -/

/-- Message `nodepb.RegisterResponse` fields the agent reads. -/
structure RegisterResponse where
  Success : Bool
  Error : String
  NodeId : String
  deriving DecidableEq, Repr

/-- The two distinct failure modes of `register`: the gRPC call itself
failed (returned unchanged), or the coordinator answered with
`success=false` (wrapped as `coordinator rejected registration: %s`). -/
inductive RegisterError where
  | transport (msg : String)
  | rejected (msg : String)
  deriving DecidableEq, Repr

/-- The five coordinator RPCs. -/
inductive CoordCall where
  | register
  | getPeers
  | heartbeat
  | getPinTasks
  | reportPinStatus
  deriving DecidableEq, Repr

/-- Operation `register`: issue one `Register` RPC; a transport error propagates
as-is, a `success=false` response becomes a named rejection carrying the
coordinator's error message, and on success the returned `NodeId` is the
node ID the agent stores.  The first component is the coordinator calls
issued (always exactly the one `Register`). -/
def register (resp : Except String RegisterResponse) :
    List CoordCall × Except RegisterError String :=
  ([CoordCall.register],
    match resp with
    | .error e => .error (.transport e)
    | .ok r =>
        if !r.Success then .error (.rejected r.Error)
        else .ok r.NodeId)

/-! ## Peer-mesh formation (`internal/agent/agent.go`, `connectToPeers`) -/

/-- Message `nodepb.PeerInfo` as the agent uses it. -/
structure PeerDescriptor where
  NodeId : String
  Multiaddrs : List String
  deriving DecidableEq, Repr

/-- Message `nodepb.GetPeersResponse` fields the agent reads. -/
structure GetPeersResponse where
  Peers : List PeerDescriptor
  Error : String
  deriving DecidableEq, Repr

/-- Failure modes of `connectToPeers` (the returned Go `error`):
`failed to get peers: %w` or `coordinator error: %s`.  Per-address connect
failures are warnings, never part of the return value. -/
inductive ConnectError where
  | getPeers (msg : String)
  | coordinator (msg : String)
  deriving DecidableEq, Repr

/-- Operation `connectToPeers`: one `GetPeers` RPC; on transport error or a non-empty
protocol `Error` field, return that error.  Otherwise attempt
`ConnectToPeer` for every multiaddr of every returned peer in order,
counting successes (`connected`), and return nil.  The result is
(coordinator calls issued, addresses attempted in order, connected count,
return value). -/
def connectToPeers (resp : Except String GetPeersResponse)
    (connect : String → Bool) :
    List CoordCall × List String × Nat × Except ConnectError Unit :=
  match resp with
  | .error e => ([CoordCall.getPeers], [], 0, .error (.getPeers e))
  | .ok r =>
      if r.Error ≠ "" then ([CoordCall.getPeers], [], 0, .error (.coordinator r.Error))
      else
        let addrs := r.Peers.flatMap (fun p => p.Multiaddrs)
        ([CoordCall.getPeers], addrs, (addrs.filter connect).length, .ok ())

/-! ## Task-poll loop (`internal/agent/agent.go`, `taskLoop`)

Each tick issues one `GetPinTasks` RPC; a failure is logged and the loop
continues; otherwise one `processTask` handler is spawned per returned
task.  For the orchestrator-level coordinator trace only the calls
matter: a `GetPinTasks` per tick and a `ReportPinStatus` per task. -/

/-- Environment of one task-poll tick: the RPC outcome, carrying the
returned tasks on success. -/
structure PollTickEnv where
  tasksResp : Except String (List PinTask)

/-- Coordinator calls of one task-poll tick. -/
def pollTickCalls (t : PollTickEnv) : List CoordCall :=
  CoordCall.getPinTasks ::
    match t.tasksResp with
    | .error _ => []
    | .ok tasks => tasks.map (fun _ => CoordCall.reportPinStatus)

/-- Coordinator calls of the task-poll loop over a finite prefix of ticks. -/
def taskLoopCalls (ticks : List PollTickEnv) : List CoordCall :=
  ticks.flatMap pollTickCalls

/-! ## Orchestrator startup (`internal/agent/agent.go`, `Start`)

`Start` runs, in order: `setupIPFS`, `GetPeerInfo`, the gRPC dial,
`register`, `connectToPeers` (failure only warned), then launches the
heartbeat and task-poll goroutines and blocks.  The two loops run
concurrently; their coordinator calls are interleaved by a schedule
(`true` picks the next heartbeat-loop call, `false` the next task-loop
call), so properties proved for every schedule hold for every
interleaving. -/

/-- Failure modes of `Start`, one per wrapping site
(`failed to setup IPFS`, `failed to get peer info`,
`failed to connect to coordinator`, `initial registration failed`). -/
inductive StartError where
  | setupIPFS (msg : String)
  | peerInfo (msg : String)
  | dial (msg : String)
  | registration (e : RegisterError)
  deriving DecidableEq, Repr

/-- Environment of one `Start` run: outcomes of every external interaction
in the order `Start` can reach them. -/
structure StartEnv where
  setup : Except String Unit
  peerInfo : Except String (String × List String)
  dial : Except String Unit
  registerResp : Except String RegisterResponse
  getPeersResp : Except String GetPeersResponse
  connect : String → Bool
  hbTicks : List HBTickEnv
  pollTicks : List PollTickEnv
  schedule : List Bool

/-- Interleaving of two call sequences under a schedule; when the schedule
runs out the remainders are concatenated.  Every interleaving of the two
sequences is `interleave s` for some schedule `s`. -/
def interleave : List Bool → List CoordCall → List CoordCall → List CoordCall
  | _, [], ys => ys
  | _, x :: xs, [] => x :: xs
  | [], x :: xs, y :: ys => x :: xs ++ y :: ys
  | true :: s, x :: xs, y :: ys => x :: interleave s xs (y :: ys)
  | false :: s, x :: xs, y :: ys => y :: interleave s (x :: xs) ys

/-- Coordinator calls of the two steady-state loops, in some interleaving. -/
def runningCalls (env : StartEnv) : List CoordCall :=
  interleave env.schedule
    (env.hbTicks.map (fun _ => CoordCall.heartbeat))
    (taskLoopCalls env.pollTicks)

/-- The coordinator RPCs `Start` issues, in order, and its return value
(`.ok` meaning startup reached the steady state; the eventual return after
context cancellation issues no further coordinator calls). -/
def startRun (env : StartEnv) : List CoordCall × Except StartError Unit :=
  match env.setup with
  | .error e => ([], .error (.setupIPFS e))
  | .ok _ =>
  match env.peerInfo with
  | .error e => ([], .error (.peerInfo e))
  | .ok _ =>
  match env.dial with
  | .error e => ([], .error (.dial e))
  | .ok _ =>
  let (regCalls, regResult) := register env.registerResp
  match regResult with
  | .error e => (regCalls, .error (.registration e))
  | .ok _ =>
      let (peerCalls, _, _, _) := connectToPeers env.getPeersResp env.connect
      (regCalls ++ peerCalls ++ runningCalls env, .ok ())

/-- The coordinator-call trace of a `Start` run. -/
def startCoordTrace (env : StartEnv) : List CoordCall :=
  (startRun env).1

/-! ## Daemon lifecycle manager (`internal/ipfs/manager.go`)

Only the state `StartDaemon` and `GetPeerInfo` read and write is modelled:
the stored daemon command handle (with whether its `Process` field is set)
and the `daemonReady` flag. -/

/-- The stored `exec.Cmd` handle as the manager inspects it:
`hasProcess` is `cmd.Process != nil`. -/
structure DaemonProc where
  hasProcess : Bool
  deriving DecidableEq, Repr

/-- The manager state `StartDaemon` and `GetPeerInfo` touch. -/
structure ManagerState where
  daemonCmd : Option DaemonProc
  daemonReady : Bool
  deriving DecidableEq, Repr

/-- A process launch (`cmd.Start()`), the only side effect `StartDaemon`
can perform besides logging. -/
inductive LaunchEvent where
  | launch
  deriving DecidableEq, Repr

/-- Whether `StartDaemon`'s liveness probe
`m.daemonCmd.Process.Signal(os.Signal(nil))` returns a nil error.  It
never does: `(*os.Process).Signal` type-asserts its argument to
`syscall.Signal` (on Windows it compares against `os.Kill`), and a nil
`os.Signal` interface always fails that assertion, so the call returns a
non-nil error regardless of whether the process is alive. -/
def signalNilOk : Bool := false

/-- Operation `StartDaemon`: if a previously stored command handle has a
`Process` whose nil-signal probe reports a nil error, return nil
immediately; since the probe always errors (`signalNilOk`), this
early-return branch is unreachable.  Otherwise launch the daemon
(`cmd.Start()`, whose outcome is `startOk`); on success store the new
handle and clear `daemonReady` (the readiness watcher sets it later). -/
def StartDaemon (st : ManagerState) (startOk : Bool) :
    ManagerState × List LaunchEvent × Except String Unit :=
  match st.daemonCmd with
  | some p =>
      if p.hasProcess && signalNilOk then (st, [], .ok ())
      else if startOk then
        ({ daemonCmd := some ⟨true⟩, daemonReady := false },
          [LaunchEvent.launch], .ok ())
      else (st, [LaunchEvent.launch], .error ("failed to start IPFS daemon"))
  | none =>
      if startOk then
        ({ daemonCmd := some ⟨true⟩, daemonReady := false },
          [LaunchEvent.launch], .ok ())
      else (st, [LaunchEvent.launch], .error ("failed to start IPFS daemon"))

/-- The readiness wait loop inside `GetPeerInfo`: a 1-second ticker probed
against a 30-second timeout channel.  `probe t` is whether the `Version`
call at the tick `t` seconds in succeeds; `fuel` is the number of ticks
that can fire before the timeout channel is selected (29 if the timeout
wins the simultaneous 30-second race, 30 if the ticker does).  Returns the
tick at which the daemon answered, or the timeout error. -/
def waitLoop (probe : Nat → Bool) : Nat → Nat → Except String Nat
  | _, 0 => .error ("IPFS daemon not ready")
  | t, fuel + 1 => if probe t then .ok t else waitLoop probe (t + 1) fuel

/-- Operation `GetPeerInfo`: if `daemonReady` is unset, poll `Version` once per
second against the 30-second timeout; on timeout return the error, on
success (and when the flag was already set) return the result of the `ID`
call, the daemon's peer identifier and advertised addresses.  `tieBreak`
resolves the simultaneous 30-second ticker/timeout race in the ticker's
favour. -/
def GetPeerInfo (st : ManagerState) (probe : Nat → Bool) (tieBreak : Bool)
    (idResult : Except String (String × List String)) :
    Except String (String × List String) :=
  if st.daemonReady then idResult
  else
    match waitLoop probe 1 (if tieBreak then 30 else 29) with
    | .error e => .error e
    | .ok _ => idResult

/-- The tick scenario of the heartbeat-resilience test property: three
consecutive `Heartbeat` RPC failures followed by one success, each tick
reading a healthy zero-byte repository. -/
def threeFailsOneSuccess : List HBTickEnv :=
  [⟨.ok (some ⟨0, 0⟩), 1, .error ("rpc unavailable")⟩,
   ⟨.ok (some ⟨0, 0⟩), 2, .error ("rpc unavailable")⟩,
   ⟨.ok (some ⟨0, 0⟩), 3, .error ("rpc unavailable")⟩,
   ⟨.ok (some ⟨0, 0⟩), 4, .ok ()⟩]

/-! ## Theorems -/

/-- C6: on every heartbeat tick whose `RepoStat` read succeeds, the
`storageUsedBytes` value sent is `RepoSize` saturated at `math.MaxInt64`:
strictly above `2^63 − 1` it is exactly `2^63 − 1`, at most `2^63 − 1` it
equals `RepoSize`, and it is never negative. -/
theorem heartbeat_storage_saturates (ticks : List HBTickEnv) (i : Nat)
    (t : HBTickEnv) (stat : RepoStatResult)
    (ht : ticks[i]? = some t) (hs : t.repoStat = .ok (some stat)) :
    ∃ ev : HBEvent, (heartbeatLoop ticks)[i]? = some ev ∧
      (stat.RepoSize > 2 ^ 63 - 1 → ev.storageUsed = ((2 : Int) ^ 63 - 1)) ∧
      (stat.RepoSize ≤ 2 ^ 63 - 1 → ev.storageUsed = (stat.RepoSize : Int)) ∧
      0 ≤ ev.storageUsed := by
  refine ⟨heartbeatTick t, ?_, ?_, ?_, ?_⟩
  · simp [heartbeatLoop, List.getElem?_map, ht]
  · intro hgt
    simp only [heartbeatTick, heartbeatStorageUsed, hs, maxInt64]
    rw [if_pos (by simpa [maxInt64] using hgt)]
    norm_num
  · intro hle
    simp only [heartbeatTick, heartbeatStorageUsed, hs, maxInt64]
    rw [if_neg (by simpa [maxInt64, Nat.not_lt] using hle)]
  · simp only [heartbeatTick, heartbeatStorageUsed, hs, maxInt64]
    split <;> positivity

/-- C6 witness: a tick reading `RepoSize = 2^63` (above the signed range)
sends exactly `2^63 − 1`. -/
theorem heartbeat_storage_saturates_witness :
    ∃ ev : HBEvent,
      (heartbeatLoop [⟨.ok (some ⟨2 ^ 63, 0⟩), 7, .ok ()⟩])[0]? = some ev ∧
      ((2 : Nat) ^ 63 > 2 ^ 63 - 1 → ev.storageUsed = ((2 : Int) ^ 63 - 1)) ∧
      ((2 : Nat) ^ 63 ≤ 2 ^ 63 - 1 → ev.storageUsed = (((2 : Nat) ^ 63 : Nat) : Int)) ∧
      0 ≤ ev.storageUsed :=
  heartbeat_storage_saturates [⟨.ok (some ⟨2 ^ 63, 0⟩), 7, .ok ()⟩] 0
    ⟨.ok (some ⟨2 ^ 63, 0⟩), 7, .ok ()⟩ ⟨2 ^ 63, 0⟩ rfl rfl

/-- C10: on every heartbeat tick whose `RepoStat` read fails or yields a
nil result, the heartbeat is still sent (the tick produces its RPC event,
with the tick's own RPC outcome) and its `storageUsedBytes` field is
exactly 0. -/
theorem heartbeat_failed_read_sends_zero (ticks : List HBTickEnv) (i : Nat)
    (t : HBTickEnv) (ht : ticks[i]? = some t)
    (hs : (∃ e, t.repoStat = .error e) ∨ t.repoStat = .ok none) :
    ∃ ev : HBEvent, (heartbeatLoop ticks)[i]? = some ev ∧
      ev.storageUsed = 0 ∧ ev.ok = isOkB t.hbResult := by
  refine ⟨heartbeatTick t, ?_, ?_, rfl⟩
  · simp [heartbeatLoop, List.getElem?_map, ht]
  · rcases hs with ⟨e, he⟩ | hn
    · simp [heartbeatTick, heartbeatStorageUsed, he]
    · simp [heartbeatTick, heartbeatStorageUsed, hn]

/-- C10 witness: a tick whose `RepoStat` call fails still sends a heartbeat
reporting zero bytes used. -/
theorem heartbeat_failed_read_sends_zero_witness :
    ∃ ev : HBEvent,
      (heartbeatLoop [⟨.error (.transport ("conn refused")), 3, .ok ()⟩])[0]? = some ev ∧
      ev.storageUsed = 0 ∧
      ev.ok = isOkB (⟨.error (.transport ("conn refused")), 3, .ok ()⟩ : HBTickEnv).hbResult :=
  heartbeat_failed_read_sends_zero [⟨.error (.transport ("conn refused")), 3, .ok ()⟩] 0
    ⟨.error (.transport ("conn refused")), 3, .ok ()⟩ rfl (.inl ⟨_, rfl⟩)

/-- C7: a `Heartbeat` RPC failure never terminates or alters the loop: over
any finite sequence of tick outcomes the loop issues exactly one heartbeat
per tick, each tick's call is determined by that tick's environment alone,
a failing head tick leaves the rest of the loop unchanged, and in the
three-failures-then-success scenario exactly one successful call occurs,
at the fourth tick. -/
theorem heartbeat_failures_never_stop_loop (ticks : List HBTickEnv) :
    (heartbeatLoop ticks).length = ticks.length ∧
    (∀ i : Nat, (heartbeatLoop ticks)[i]? = ticks[i]?.map heartbeatTick) ∧
    (∀ t rest, heartbeatLoop (t :: rest) = heartbeatTick t :: heartbeatLoop rest) ∧
    ((heartbeatLoop threeFailsOneSuccess).countP (fun ev => ev.ok) = 1 ∧
      ((heartbeatLoop threeFailsOneSuccess)[3]?.map (fun ev => ev.ok)) = some true) := by
  refine ⟨by simp [heartbeatLoop], ?_, by intro t rest; rfl, by constructor <;> rfl⟩
  intro i
  simp [heartbeatLoop, List.getElem?_map]

/-- C1: for every pin task, `processTask` issues exactly one
`ReportPinStatus` call for that task's `taskID`; every report it issues
carries status `Pinned` exactly when the `Pin` call returned no error (and
`Failed` otherwise); and the report comes strictly after the pin attempt
in the handler's event order. -/
theorem processTask_one_report_after_pin (task : PinTask) (env : TaskEnv) :
    ((processTask task env).filter (TaskEvent.isReportFor task.TaskId)).length = 1 ∧
    (∀ s : PinStatus, ∀ ok : Bool,
      TaskEvent.report task.TaskId s ok ∈ processTask task env →
        (s = PinStatus.pinned ↔ Client.Pin env.pinHTTP = .ok ())) ∧
    (∃ i j : Nat, i < j ∧
      (processTask task env)[i]? =
        some (TaskEvent.pinAttempt task.Cid (isOkB (Client.Pin env.pinHTTP))) ∧
      ∃ s ok, (processTask task env)[j]? = some (TaskEvent.report task.TaskId s ok)) := by
  refine ⟨?_, ?_, 0, 1, Nat.zero_lt_one, rfl, _, _, rfl⟩
  · simp [processTask, TaskEvent.isReportFor]
  · intro s ok hmem
    have hs : s = (if isOkB (Client.Pin env.pinHTTP) then PinStatus.pinned
        else PinStatus.failed) := by
      have := by simpa [processTask] using hmem
      exact this.1
    rcases h : Client.Pin env.pinHTTP with e | u
    · subst hs
      simp [isOkB, h]
    · subst hs
      simp [isOkB, h]

/-- C1 witness: the round trip of task `{taskID:"t1", cid:"Qm123"}` whose
pin request fails with status 500. -/
theorem processTask_one_report_after_pin_witness :
    ((processTask ⟨"t1", "Qm123"⟩ ⟨.response ⟨500, "boom"⟩, .ok ()⟩).filter
        (TaskEvent.isReportFor ("t1"))).length = 1 ∧
    (∀ s : PinStatus, ∀ ok : Bool,
      TaskEvent.report ("t1") s ok ∈ processTask ⟨"t1", "Qm123"⟩ ⟨.response ⟨500, "boom"⟩, .ok ()⟩ →
        (s = PinStatus.pinned ↔ Client.Pin (.response ⟨500, "boom"⟩) = .ok ())) ∧
    (∃ i j : Nat, i < j ∧
      (processTask ⟨"t1", "Qm123"⟩ ⟨.response ⟨500, "boom"⟩, .ok ()⟩)[i]? =
        some (TaskEvent.pinAttempt ("Qm123") (isOkB (Client.Pin (.response ⟨500, "boom"⟩)))) ∧
      ∃ s ok, (processTask ⟨"t1", "Qm123"⟩ ⟨.response ⟨500, "boom"⟩, .ok ()⟩)[j]? =
        some (TaskEvent.report ("t1") s ok)) :=
  processTask_one_report_after_pin ⟨"t1", "Qm123"⟩ ⟨.response ⟨500, "boom"⟩, .ok ()⟩

/-- C2: a `Register` exchange answered with `success=false` makes
`register` return the named rejection error carrying the coordinator's
message — a constructor distinct from every transport error — after
exactly one `Register` call (no retry) and with no node ID produced; and
`Start` then aborts the whole startup, wrapping that rejection as its
fatal error and issuing no further coordinator calls. -/
theorem register_rejection_aborts_start (env : StartEnv) (r : RegisterResponse)
    (hsetup : env.setup = .ok ()) (hpi : ∃ pi, env.peerInfo = .ok pi)
    (hdial : env.dial = .ok ())
    (hresp : env.registerResp = .ok r) (hfail : r.Success = false) :
    register env.registerResp =
      ([CoordCall.register], .error (.rejected r.Error)) ∧
    (∀ m : String, (RegisterError.rejected r.Error) ≠ RegisterError.transport m) ∧
    startRun env =
      ([CoordCall.register], .error (.registration (.rejected r.Error))) := by
  obtain ⟨pi, hpi⟩ := hpi
  have hreg : register env.registerResp =
      ([CoordCall.register], .error (.rejected r.Error)) := by
    simp [register, hresp, hfail]
  refine ⟨hreg, fun m => by simp, ?_⟩
  simp only [startRun, hsetup, hpi, hdial, hreg]

/-- C2 witness: a concrete rejected registration. -/
theorem register_rejection_aborts_start_witness :
    register (StartEnv.registerResp
        ⟨.ok (), .ok ("peer1", []), .ok (), .ok ⟨false, "invalid token", ""⟩,
          .ok ⟨[], ""⟩, fun _ => true, [], [], []⟩) =
      ([CoordCall.register], .error (.rejected ("invalid token"))) ∧
    (∀ m : String,
      (RegisterError.rejected ("invalid token")) ≠ RegisterError.transport m) ∧
    startRun
        ⟨.ok (), .ok ("peer1", []), .ok (), .ok ⟨false, "invalid token", ""⟩,
          .ok ⟨[], ""⟩, fun _ => true, [], [], []⟩ =
      ([CoordCall.register], .error (.registration (.rejected ("invalid token")))) :=
  register_rejection_aborts_start
    ⟨.ok (), .ok ("peer1", []), .ok (), .ok ⟨false, "invalid token", ""⟩,
      .ok ⟨[], ""⟩, fun _ => true, [], [], []⟩
    ⟨false, "invalid token", ""⟩ rfl ⟨("peer1", []), rfl⟩ rfl rfl rfl

/-- C3: in every `Start` run (over every environment and every
interleaving of the steady-state loops), `Register` is the first
coordinator RPC issued — the trace is empty or begins with `Register`;
every other coordinator call (`Heartbeat`, `GetPeers`, `GetPinTasks`,
`ReportPinStatus`) occurs only when `Register` completed successfully with
a node ID; and if `Register` fails, no coordinator call beyond that single
`Register` is ever issued. -/
theorem register_always_first (env : StartEnv) :
    (startCoordTrace env = [] ∨ (startCoordTrace env)[0]? = some CoordCall.register) ∧
    (∀ c ∈ startCoordTrace env, c ≠ CoordCall.register →
      ∃ nid, (register env.registerResp).2 = .ok nid) ∧
    (∀ e, (register env.registerResp).2 = .error e →
      startCoordTrace env = [] ∨ startCoordTrace env = [CoordCall.register]) := by
  have hshape : startCoordTrace env = [] ∨
      (startCoordTrace env = [CoordCall.register] ∧
        ∃ e, (register env.registerResp).2 = .error e) ∨
      ((∃ rest, startCoordTrace env = CoordCall.register :: rest) ∧
        ∃ nid, (register env.registerResp).2 = .ok nid) := by
    rcases hs : env.setup with e | u
    · exact Or.inl (by simp [startCoordTrace, startRun, hs])
    rcases hp : env.peerInfo with e | pi
    · exact Or.inl (by simp [startCoordTrace, startRun, hs, hp])
    rcases hd : env.dial with e | u'
    · exact Or.inl (by simp [startCoordTrace, startRun, hs, hp, hd])
    rcases hr : env.registerResp with e | r
    · exact Or.inr (Or.inl
        ⟨by simp [startCoordTrace, startRun, register, hs, hp, hd, hr],
          RegisterError.transport e, by simp [register, hr]⟩)
    rcases hS : r.Success
    · exact Or.inr (Or.inl
        ⟨by simp [startCoordTrace, startRun, register, hs, hp, hd, hr, hS],
          RegisterError.rejected r.Error, by simp [register, hr, hS]⟩)
    · exact Or.inr (Or.inr
        ⟨⟨(connectToPeers env.getPeersResp env.connect).1 ++ runningCalls env,
            by simp [startCoordTrace, startRun, register, hs, hp, hd, hr, hS]⟩,
          r.NodeId, by simp [register, hr, hS]⟩)
  rcases hshape with hnil | ⟨honly, e, herr⟩ | ⟨⟨rest, htr⟩, nid, hok⟩
  · exact ⟨Or.inl hnil, by simp [hnil], fun _ _ => Or.inl hnil⟩
  · refine ⟨Or.inr (by simp [honly]), ?_, fun _ _ => Or.inr honly⟩
    intro c hc hne
    rw [honly] at hc
    simp at hc
    exact absurd hc hne
  · refine ⟨Or.inr (by simp [htr]), fun c _ _ => ⟨nid, hok⟩, ?_⟩
    intro e he
    rw [hok] at he
    exact absurd he (by simp)

/-- C3 witness: a run whose `Register` RPC fails at the transport level
issues that single `Register` call and nothing else. -/
theorem register_always_first_witness :
    (startCoordTrace
        ⟨.ok (), .ok ("peer1", []), .ok (), .error ("unavailable"), .ok ⟨[], ""⟩,
          fun _ => true, [], [], []⟩ = [] ∨
      (startCoordTrace
        ⟨.ok (), .ok ("peer1", []), .ok (), .error ("unavailable"), .ok ⟨[], ""⟩,
          fun _ => true, [], [], []⟩)[0]? = some CoordCall.register) ∧
    (∀ c ∈ startCoordTrace
        ⟨.ok (), .ok ("peer1", []), .ok (), .error ("unavailable"), .ok ⟨[], ""⟩,
          fun _ => true, [], [], []⟩, c ≠ CoordCall.register →
      ∃ nid, (register (Except.error ("unavailable") :
        Except String RegisterResponse)).2 = .ok nid) ∧
    (∀ e, (register (Except.error ("unavailable") :
        Except String RegisterResponse)).2 = .error e →
      startCoordTrace
        ⟨.ok (), .ok ("peer1", []), .ok (), .error ("unavailable"), .ok ⟨[], ""⟩,
          fun _ => true, [], [], []⟩ = [] ∨
      startCoordTrace
        ⟨.ok (), .ok ("peer1", []), .ok (), .error ("unavailable"), .ok ⟨[], ""⟩,
          fun _ => true, [], [], []⟩ = [CoordCall.register]) :=
  register_always_first
    ⟨.ok (), .ok ("peer1", []), .ok (), .error ("unavailable"), .ok ⟨[], ""⟩,
      fun _ => true, [], [], []⟩

/-- Successes and failures of a list of boolean attempts partition it. -/
theorem length_filter_add_length_filter_not {α : Type} (p : α → Bool) :
    ∀ l : List α, (l.filter p).length + (l.filter (fun a => !p a)).length = l.length := by
  intro l
  induction l with
  | nil => rfl
  | cons a l ih =>
      rcases ha : p a
      · simp [List.filter, ha]
        omega
      · simp [List.filter, ha]
        omega

/-- C8: when `GetPeers` returns peer descriptors with `M` total addresses
of which `K` fail to connect, `connectToPeers` still attempts every
address in order, completes without error, and its connected count is
exactly `M − K`; and `Start` proceeds to the steady-state loops (the
heartbeat and task-poll calls follow) whatever the mesh-formation
environment was. -/
theorem connect_partial_failure (peers : List PeerDescriptor)
    (connect : String → Bool) (env : StartEnv)
    (hsetup : env.setup = .ok ()) (hpi : ∃ pi, env.peerInfo = .ok pi)
    (hdial : env.dial = .ok ())
    (hreg : ∃ nid, (register env.registerResp).2 = .ok nid) :
    connectToPeers (.ok ⟨peers, ""⟩) connect =
      ([CoordCall.getPeers], peers.flatMap (fun p => p.Multiaddrs),
        (peers.flatMap (fun p => p.Multiaddrs)).length -
          ((peers.flatMap (fun p => p.Multiaddrs)).filter (fun a => !connect a)).length,
        .ok ()) ∧
    startRun env =
      (CoordCall.register ::
          ((connectToPeers env.getPeersResp env.connect).1 ++ runningCalls env),
        .ok ()) := by
  obtain ⟨pi, hpi⟩ := hpi
  obtain ⟨nid, hok⟩ := hreg
  constructor
  · have hcount : ((peers.flatMap (fun p => p.Multiaddrs)).filter connect).length =
        (peers.flatMap (fun p => p.Multiaddrs)).length -
          ((peers.flatMap (fun p => p.Multiaddrs)).filter (fun a => !connect a)).length := by
      have := length_filter_add_length_filter_not connect (peers.flatMap (fun p => p.Multiaddrs))
      omega
    simp [connectToPeers, hcount]
  · have h1 : register env.registerResp = ([CoordCall.register], .ok nid) := by
      rw [← hok]
      rfl
    simp [startRun, hsetup, hpi, hdial, h1]

/-- C8 witness: two peers with three addresses of which one fails connect
with a count of exactly two, in a run that then starts the loops. -/
theorem connect_partial_failure_witness :
    connectToPeers (.ok ⟨[⟨"n2", ["a1", "a2"]⟩, ⟨"n3", ["a3"]⟩], ""⟩)
        (fun a => a != "a2") =
      ([CoordCall.getPeers],
        ([⟨"n2", ["a1", "a2"]⟩, ⟨"n3", ["a3"]⟩] : List PeerDescriptor).flatMap
          (fun p => p.Multiaddrs),
        (([⟨"n2", ["a1", "a2"]⟩, ⟨"n3", ["a3"]⟩] : List PeerDescriptor).flatMap
            (fun p => p.Multiaddrs)).length -
          ((([⟨"n2", ["a1", "a2"]⟩, ⟨"n3", ["a3"]⟩] : List PeerDescriptor).flatMap
              (fun p => p.Multiaddrs)).filter (fun a => !(a != "a2"))).length,
        .ok ()) ∧
    startRun
        ⟨.ok (), .ok ("peer1", []), .ok (), .ok ⟨true, "", "node-7"⟩,
          .ok ⟨[⟨"n2", ["a1", "a2"]⟩, ⟨"n3", ["a3"]⟩], ""⟩, fun a => a != "a2",
          [⟨.ok (some ⟨0, 0⟩), 1, .ok ()⟩], [⟨.ok []⟩], [true]⟩ =
      (CoordCall.register ::
          ((connectToPeers
              (StartEnv.getPeersResp
                ⟨.ok (), .ok ("peer1", []), .ok (), .ok ⟨true, "", "node-7"⟩,
                  .ok ⟨[⟨"n2", ["a1", "a2"]⟩, ⟨"n3", ["a3"]⟩], ""⟩, fun a => a != "a2",
                  [⟨.ok (some ⟨0, 0⟩), 1, .ok ()⟩], [⟨.ok []⟩], [true]⟩)
              (StartEnv.connect
                ⟨.ok (), .ok ("peer1", []), .ok (), .ok ⟨true, "", "node-7"⟩,
                  .ok ⟨[⟨"n2", ["a1", "a2"]⟩, ⟨"n3", ["a3"]⟩], ""⟩, fun a => a != "a2",
                  [⟨.ok (some ⟨0, 0⟩), 1, .ok ()⟩], [⟨.ok []⟩], [true]⟩)).1 ++
            runningCalls
              ⟨.ok (), .ok ("peer1", []), .ok (), .ok ⟨true, "", "node-7"⟩,
                .ok ⟨[⟨"n2", ["a1", "a2"]⟩, ⟨"n3", ["a3"]⟩], ""⟩, fun a => a != "a2",
                [⟨.ok (some ⟨0, 0⟩), 1, .ok ()⟩], [⟨.ok []⟩], [true]⟩),
        .ok ()) :=
  connect_partial_failure [⟨"n2", ["a1", "a2"]⟩, ⟨"n3", ["a3"]⟩] (fun a => a != "a2")
    ⟨.ok (), .ok ("peer1", []), .ok (), .ok ⟨true, "", "node-7"⟩,
      .ok ⟨[⟨"n2", ["a1", "a2"]⟩, ⟨"n3", ["a3"]⟩], ""⟩, fun a => a != "a2",
      [⟨.ok (some ⟨0, 0⟩), 1, .ok ()⟩], [⟨.ok []⟩], [true]⟩
    rfl ⟨("peer1", []), rfl⟩ rfl ⟨"node-7", rfl⟩

/-- C4: `StartDaemon` is NOT idempotent — the liveness probe
`Signal(os.Signal(nil))` always returns a non-nil error, so the
already-running early return is dead code: every call, in every state,
performs a process launch (`cmd.Start()`); in particular a second
`StartDaemon` right after a successful first one — the daemon process
freshly alive — launches a second daemon process instead of returning
immediately without one. -/
theorem startDaemon_always_relaunches (st : ManagerState) (startOk : Bool) :
    (StartDaemon st startOk).2.1 = [LaunchEvent.launch] ∧
    StartDaemon (StartDaemon ⟨none, false⟩ true).1 true =
      (⟨some ⟨true⟩, false⟩, [LaunchEvent.launch], .ok ()) := by
  refine ⟨?_, rfl⟩
  rcases h : st.daemonCmd with _ | p
  · rcases startOk <;> simp [StartDaemon, h]
  · rcases startOk <;> simp [StartDaemon, signalNilOk, h]

/-- The readiness wait loop returns the timeout error when no probe ever
succeeds. -/
theorem waitLoop_timeout (probe : Nat → Bool) (h : ∀ t, probe t = false) :
    ∀ fuel s : Nat, waitLoop probe s fuel = .error ("IPFS daemon not ready") := by
  intro fuel
  induction fuel with
  | zero => intro s; rfl
  | succ n ih =>
      intro s
      simp [waitLoop, h s]
      exact ih (s + 1)

/-- The readiness wait loop reads only the probes inside its window. -/
theorem waitLoop_congr (probe1 probe2 : Nat → Bool) :
    ∀ fuel s : Nat, (∀ t, s ≤ t → t < s + fuel → probe1 t = probe2 t) →
      waitLoop probe1 s fuel = waitLoop probe2 s fuel := by
  intro fuel
  induction fuel with
  | zero => intro s _; rfl
  | succ n ih =>
      intro s h
      have hs : probe1 s = probe2 s := h s le_rfl (by omega)
      simp only [waitLoop, hs]
      by_cases hp : probe2 s = true
      · simp [hp]
      · simp only [Bool.not_eq_true] at hp
        simp [hp]
        exact ih (s + 1) fun t ht1 ht2 => h t (by omega) (by omega)

/-- The readiness wait loop succeeds when some probe in its window
succeeds. -/
theorem waitLoop_success (probe : Nat → Bool) :
    ∀ fuel s k : Nat, s ≤ k → k < s + fuel → probe k = true →
      ∃ j, waitLoop probe s fuel = .ok j := by
  intro fuel
  induction fuel with
  | zero => intro s k h1 h2 _; omega
  | succ n ih =>
      intro s k h1 h2 h3
      by_cases hp : probe s = true
      · exact ⟨s, by simp [waitLoop, hp]⟩
      · rcases Nat.eq_or_lt_of_le h1 with rfl | hlt
        · exact absurd h3 hp
        · obtain ⟨j, hj⟩ := ih (s + 1) k hlt (by omega) h3
          simp only [Bool.not_eq_true] at hp
          exact ⟨j, by simp [waitLoop, hp, hj]⟩

/-- C5: with the daemon-ready flag unset, if the control API never answers
a `Version` probe then `GetPeerInfo` returns the timeout error — and it
consults only the probes of the 30-second window (1-second ticks 1..30,
the exact count settled by the ticker/timeout tie-break), so it never
polls past the window; if a probe succeeds within the window it returns
the daemon's peer identifier and advertised addresses. -/
theorem getPeerInfo_timeout_bounded (st : ManagerState) (probe : Nat → Bool)
    (tieBreak : Bool) (pid : String) (addrs : List String)
    (hready : st.daemonReady = false) :
    ((∀ t, probe t = false) →
      GetPeerInfo st probe tieBreak (.ok (pid, addrs)) = .error ("IPFS daemon not ready")) ∧
    (∀ probe2 : Nat → Bool, (∀ t, 1 ≤ t → t ≤ 30 → probe t = probe2 t) →
      GetPeerInfo st probe tieBreak (.ok (pid, addrs)) =
        GetPeerInfo st probe2 tieBreak (.ok (pid, addrs))) ∧
    (∀ k, 1 ≤ k → k ≤ 29 → probe k = true →
      GetPeerInfo st probe tieBreak (.ok (pid, addrs)) = .ok (pid, addrs)) := by
  refine ⟨?_, ?_, ?_⟩
  · intro h
    simp [GetPeerInfo, hready, waitLoop_timeout probe h]
  · intro probe2 h
    have hcongr : waitLoop probe 1 (if tieBreak then 30 else 29) =
        waitLoop probe2 1 (if tieBreak then 30 else 29) := by
      apply waitLoop_congr
      intro t ht1 ht2
      refine h t ht1 ?_
      rcases tieBreak <;> simp at ht2 <;> omega
    simp [GetPeerInfo, hready, hcongr]
  · intro k h1 h2 h3
    obtain ⟨j, hj⟩ := waitLoop_success probe (if tieBreak then 30 else 29) 1 k h1
      (by rcases tieBreak <;> simp <;> omega) h3
    simp [GetPeerInfo, hready, hj]

/-- C5 witness: a never-answering control API times out after the polling
window rather than hanging. -/
theorem getPeerInfo_timeout_bounded_witness :
    ((∀ t, (fun _ : Nat => false) t = false) →
      GetPeerInfo ⟨none, false⟩ (fun _ => false) true (.ok ("p", ["addr"])) =
        .error ("IPFS daemon not ready")) ∧
    (∀ probe2 : Nat → Bool, (∀ t, 1 ≤ t → t ≤ 30 → (fun _ : Nat => false) t = probe2 t) →
      GetPeerInfo ⟨none, false⟩ (fun _ => false) true (.ok ("p", ["addr"])) =
        GetPeerInfo ⟨none, false⟩ probe2 true (.ok ("p", ["addr"]))) ∧
    (∀ k, 1 ≤ k → k ≤ 29 → (fun _ : Nat => false) k = true →
      GetPeerInfo ⟨none, false⟩ (fun _ => false) true (.ok ("p", ["addr"])) =
        .ok ("p", ["addr"])) :=
  getPeerInfo_timeout_bounded ⟨none, false⟩ (fun _ => false) true ("p") ["addr"] rfl

/-- C9 counterexample: a `202 Accepted` response is a 2xx success at the
HTTP level, yet `Pin` returns an error — the client accepts only status
200, so "error exactly on transport failure or non-2xx status" fails. -/
theorem client_pin_errors_on_2xx :
    (200 ≤ 202 ∧ 202 < 300) ∧
    Client.Pin (.response ⟨202, "accepted"⟩) = .error (.api 202 "accepted") :=
  ⟨by omega, rfl⟩

/-- C9 (amended): every Storage-API client operation fails with a
transport error on network failure and, on every response whose status is
not 200 (including other 2xx statuses), with an API error carrying the
daemon's status code and response body text; on a 200 response `Pin`
succeeds, and each JSON-returning operation succeeds exactly when its body
decodes, failing with a decode error otherwise. -/
theorem client_ops_error_conditions (decV : String → Option String)
    (decI : String → Option (String × List String))
    (decS : String → Option RepoStatResult) (res : HTTPResult) :
    ((∀ m, Client.Pin (.transportErr m) = .error (.transport m)) ∧
      (∀ r : HTTPResponse, r.statusCode ≠ 200 →
        Client.Pin (.response r) = .error (.api r.statusCode r.body)) ∧
      (∀ r : HTTPResponse, r.statusCode = 200 → Client.Pin (.response r) = .ok ()) ∧
      (isOkB (Client.Pin res) = true ↔
        ∃ r : HTTPResponse, res = .response r ∧ r.statusCode = 200)) ∧
    ((∀ m, Client.Version decV (.transportErr m) = .error (.transport m)) ∧
      (∀ r : HTTPResponse, r.statusCode ≠ 200 →
        Client.Version decV (.response r) = .error (.api r.statusCode r.body)) ∧
      (∀ r : HTTPResponse, r.statusCode = 200 → decV r.body = none →
        Client.Version decV (.response r) = .error (.decode r.body)) ∧
      (∀ r : HTTPResponse, ∀ v, r.statusCode = 200 → decV r.body = some v →
        Client.Version decV (.response r) = .ok v)) ∧
    ((∀ m, Client.ID decI (.transportErr m) = .error (.transport m)) ∧
      (∀ r : HTTPResponse, r.statusCode ≠ 200 →
        Client.ID decI (.response r) = .error (.api r.statusCode r.body)) ∧
      (∀ r : HTTPResponse, r.statusCode = 200 → decI r.body = none →
        Client.ID decI (.response r) = .error (.decode r.body)) ∧
      (∀ r : HTTPResponse, ∀ v, r.statusCode = 200 → decI r.body = some v →
        Client.ID decI (.response r) = .ok v)) ∧
    ((∀ m, Client.RepoStat decS (.transportErr m) = .error (.transport m)) ∧
      (∀ r : HTTPResponse, r.statusCode ≠ 200 →
        Client.RepoStat decS (.response r) = .error (.api r.statusCode r.body)) ∧
      (∀ r : HTTPResponse, r.statusCode = 200 → decS r.body = none →
        Client.RepoStat decS (.response r) = .error (.decode r.body)) ∧
      (∀ r : HTTPResponse, ∀ v, r.statusCode = 200 → decS r.body = some v →
        Client.RepoStat decS (.response r) = .ok v)) := by
  refine ⟨⟨fun m => rfl, fun r hr => ?_, fun r hr => ?_, ?_⟩,
    ⟨fun m => rfl, fun r hr => ?_, fun r hr hd => ?_, fun r v hr hd => ?_⟩,
    ⟨fun m => rfl, fun r hr => ?_, fun r hr hd => ?_, fun r v hr hd => ?_⟩,
    ⟨fun m => rfl, fun r hr => ?_, fun r hr hd => ?_, fun r v hr hd => ?_⟩⟩
  · simp [Client.Pin, hr]
  · simp [Client.Pin, hr]
  · rcases res with m | r
    · simp [Client.Pin, isOkB]
    · by_cases hr : r.statusCode = 200
      · simp [Client.Pin, isOkB, hr]
      · simp [Client.Pin, isOkB, hr]
  · simp [Client.Version, hr]
  · simp [Client.Version, hr, hd]
  · simp [Client.Version, hr, hd]
  · simp [Client.ID, hr]
  · simp [Client.ID, hr, hd]
  · simp [Client.ID, hr, hd]
  · simp [Client.RepoStat, hr]
  · simp [Client.RepoStat, hr, hd]
  · simp [Client.RepoStat, hr, hd]

/-- C9 witness: the amended conditions instantiated at trivial decoders
and a transport failure. -/
theorem client_ops_error_conditions_witness :
    ((∀ m, Client.Pin (.transportErr m) = .error (.transport m)) ∧
      (∀ r : HTTPResponse, r.statusCode ≠ 200 →
        Client.Pin (.response r) = .error (.api r.statusCode r.body)) ∧
      (∀ r : HTTPResponse, r.statusCode = 200 → Client.Pin (.response r) = .ok ()) ∧
      (isOkB (Client.Pin (.transportErr ("conn refused"))) = true ↔
        ∃ r : HTTPResponse, (HTTPResult.transportErr ("conn refused")) = .response r ∧
          r.statusCode = 200)) ∧
    ((∀ m, Client.Version (fun _ => none) (.transportErr m) = .error (.transport m)) ∧
      (∀ r : HTTPResponse, r.statusCode ≠ 200 →
        Client.Version (fun _ => none) (.response r) = .error (.api r.statusCode r.body)) ∧
      (∀ r : HTTPResponse, r.statusCode = 200 → (fun _ : String => (none : Option String)) r.body = none →
        Client.Version (fun _ => none) (.response r) = .error (.decode r.body)) ∧
      (∀ r : HTTPResponse, ∀ v, r.statusCode = 200 →
        (fun _ : String => (none : Option String)) r.body = some v →
        Client.Version (fun _ => none) (.response r) = .ok v)) ∧
    ((∀ m, Client.ID (fun _ => none) (.transportErr m) = .error (.transport m)) ∧
      (∀ r : HTTPResponse, r.statusCode ≠ 200 →
        Client.ID (fun _ => none) (.response r) = .error (.api r.statusCode r.body)) ∧
      (∀ r : HTTPResponse, r.statusCode = 200 →
        (fun _ : String => (none : Option (String × List String))) r.body = none →
        Client.ID (fun _ => none) (.response r) = .error (.decode r.body)) ∧
      (∀ r : HTTPResponse, ∀ v, r.statusCode = 200 →
        (fun _ : String => (none : Option (String × List String))) r.body = some v →
        Client.ID (fun _ => none) (.response r) = .ok v)) ∧
    ((∀ m, Client.RepoStat (fun _ => none) (.transportErr m) = .error (.transport m)) ∧
      (∀ r : HTTPResponse, r.statusCode ≠ 200 →
        Client.RepoStat (fun _ => none) (.response r) = .error (.api r.statusCode r.body)) ∧
      (∀ r : HTTPResponse, r.statusCode = 200 →
        (fun _ : String => (none : Option RepoStatResult)) r.body = none →
        Client.RepoStat (fun _ => none) (.response r) = .error (.decode r.body)) ∧
      (∀ r : HTTPResponse, ∀ v, r.statusCode = 200 →
        (fun _ : String => (none : Option RepoStatResult)) r.body = some v →
        Client.RepoStat (fun _ => none) (.response r) = .ok v)) :=
  client_ops_error_conditions (fun _ => none) (fun _ => none) (fun _ => none)
    (.transportErr ("conn refused"))

end WabiSaby
